import Mathlib

/-!
Verification development for the Tauri host shell in `src-tauri/src/lib.rs`:
backend-process supervision, port selection, and dynamic global-hotkey
management.  Pure helpers (`parse_modifiers`, `parse_key`) are embedded as
Lean functions; the stateful commands (`update_shortcut`,
`get_shortcut_settings`, the startup shortcut load, the drain loop, the
exit-time terminate handler) are embedded as explicit state-passing
functions over a small system-state type, with the fallible external calls
(OS shortcut registry, settings store) modelled by boolean outcome flags.
-/

/-- Embedding of the ASCII fragment of `str::to_uppercase` used by
`parse_modifiers` and `parse_key` (all tokens the source compares against
are ASCII). -/
def upperString (s : String) : String :=
  ⟨s.data.map Char.toUpper⟩

/-- Key codes the source can produce: `Code::F1 ..= F12` and
`Code::KeyA ..= KeyZ` from `tauri_plugin_global_shortcut`. -/
inductive Code
  | F1 | F2 | F3 | F4 | F5 | F6 | F7 | F8 | F9 | F10 | F11 | F12
  | KeyA | KeyB | KeyC | KeyD | KeyE | KeyF | KeyG | KeyH | KeyI
  | KeyJ | KeyK | KeyL | KeyM | KeyN | KeyO | KeyP | KeyQ | KeyR
  | KeyS | KeyT | KeyU | KeyV | KeyW | KeyX | KeyY | KeyZ
deriving DecidableEq, Repr

/-- The four modifier flags of `tauri_plugin_global_shortcut::Modifiers`
that the source ever sets (`ALT`, `CONTROL`, `SHIFT`, `META`). -/
structure Modifiers where
  alt : Bool
  control : Bool
  shift : Bool
  meta : Bool
deriving DecidableEq, Repr

/-- `Modifiers::empty()`. -/
def Modifiers.empty : Modifiers :=
  ⟨false, false, false, false⟩

/-- One iteration of the loop body of `parse_modifiers`
(lib.rs lines 273-285): match the uppercased token and OR in the
corresponding flag; unrecognized tokens leave the accumulator unchanged. -/
def applyModifier (result : Modifiers) (m : String) : Modifiers :=
  match upperString m with
  | "ALT" | "OPTION" => { result with alt := true }
  | "CTRL" | "CONTROL" => { result with control := true }
  | "SHIFT" => { result with shift := true }
  | "META" | "SUPER" | "CMD" | "COMMAND" => { result with meta := true }
  | _ => result

/-- `parse_modifiers` (lib.rs lines 273-285). -/
def parse_modifiers (modifiers : List String) : Modifiers :=
  modifiers.foldl applyModifier Modifiers.empty

/-- The match body of `parse_key`, applied to the already-uppercased
token (lib.rs lines 289-329). -/
def keyCode : String → Option Code
  | "F1" => some .F1
  | "F2" => some .F2
  | "F3" => some .F3
  | "F4" => some .F4
  | "F5" => some .F5
  | "F6" => some .F6
  | "F7" => some .F7
  | "F8" => some .F8
  | "F9" => some .F9
  | "F10" => some .F10
  | "F11" => some .F11
  | "F12" => some .F12
  | "A" => some .KeyA
  | "B" => some .KeyB
  | "C" => some .KeyC
  | "D" => some .KeyD
  | "E" => some .KeyE
  | "F" => some .KeyF
  | "G" => some .KeyG
  | "H" => some .KeyH
  | "I" => some .KeyI
  | "J" => some .KeyJ
  | "K" => some .KeyK
  | "L" => some .KeyL
  | "M" => some .KeyM
  | "N" => some .KeyN
  | "O" => some .KeyO
  | "P" => some .KeyP
  | "Q" => some .KeyQ
  | "R" => some .KeyR
  | "S" => some .KeyS
  | "T" => some .KeyT
  | "U" => some .KeyU
  | "V" => some .KeyV
  | "W" => some .KeyW
  | "X" => some .KeyX
  | "Y" => some .KeyY
  | "Z" => some .KeyZ
  | _ => none

/-- `parse_key` (lib.rs lines 288-330): uppercase the token, then match. -/
def parse_key (key : String) : Option Code :=
  keyCode (upperString key)

/-- A modifier token is recognized when it is one of the tokens
`parse_modifiers` reacts to; every other token falls into the wildcard
arm and is dropped. -/
def recognizedModifier (m : String) : Bool :=
  match upperString m with
  | "ALT" | "OPTION" | "CTRL" | "CONTROL" | "SHIFT"
  | "META" | "SUPER" | "CMD" | "COMMAND" => true
  | _ => false

/-- `ShortcutConfig` (lib.rs lines 52-56): the raw strings persisted to
the store. -/
structure ShortcutConfig where
  modifiers : List String
  key : String
deriving DecidableEq, Repr

/-- `ShortcutsSettings` (lib.rs lines 58-61). Its `Default` is
`{ toggle_recording: None }`. -/
structure ShortcutsSettings where
  toggle_recording : Option ShortcutConfig
deriving DecidableEq, Repr

/-- The value found under the `shortcuts` key of the settings store:
absent, present but not deserializable into `ShortcutsSettings`, or a
deserialized value. -/
inductive StoredShortcuts
  | absent
  | unparsable
  | parsed (s : ShortcutsSettings)
deriving DecidableEq, Repr

/-- `Shortcut::new(Some(mods), code)`: one OS-level shortcut value. -/
structure Shortcut where
  mods : Modifiers
  code : Code
deriving DecidableEq, Repr

/-- The observable system state the shortcut subsystem mutates: the list
of currently active OS-level registrations made by this app, and the
persisted `shortcuts` record in the settings store. -/
structure SysState where
  registered : List Shortcut
  stored : StoredShortcuts
deriving DecidableEq, Repr

/-- Outcomes of the external calls one `update_shortcut` invocation makes:
whether `global_shortcut.unregister_all()` succeeds, whether
`global_shortcut.on_shortcut(new)` succeeds, and whether the store
access-set-save sequence succeeds (store access and save failures are
collapsed into one flag; both leave the persisted record unchanged). -/
structure OsEnv where
  unregisterAllOk : Bool
  registerOk : Bool
  storeOk : Bool
deriving DecidableEq, Repr

/-- The error cases `update_shortcut` can return (each is a `String` in
the source; only `invalidKey` has fixed text, "Invalid key"). -/
inductive ShortcutError
  | invalidKey
  | unregisterFailed
  | registerFailed
  | storeFailed
deriving DecidableEq, Repr

deriving instance DecidableEq for Except

/-- `update_shortcut` (lib.rs lines 348-374), with its sequence of
externally observable intermediate states.  Returns the result, the final
state, and the list of states the system passes through (initial state
included, then one entry per completed mutation step):
parse modifiers, parse key (error before any mutation), unregister all
existing shortcuts, register the new shortcut, persist the raw strings to
the store. -/
def update_shortcut (env : OsEnv) (st : SysState)
    (modifiers : List String) (key : String) :
    Except ShortcutError Unit × SysState × List SysState :=
  match parse_key key with
  | none => (.error .invalidKey, st, [st])
  | some code =>
    let mods := parse_modifiers modifiers
    let new_shortcut : Shortcut := ⟨mods, code⟩
    if env.unregisterAllOk then
      let st1 : SysState := { st with registered := [] }
      if env.registerOk then
        let st2 : SysState := { st1 with registered := [new_shortcut] }
        if env.storeOk then
          let st3 : SysState :=
            { st2 with stored := .parsed ⟨some ⟨modifiers, key⟩⟩ }
          (.ok (), st3, [st, st1, st2, st3])
        else
          (.error .storeFailed, st2, [st, st1, st2])
      else
        (.error .registerFailed, st1, [st, st1])
    else
      (.error .unregisterFailed, st, [st])

/-- The deserialization step shared by `get_shortcut_settings` and the
startup load: a missing or undeserializable value falls back to
`ShortcutsSettings::default()`. -/
def load_settings : StoredShortcuts → ShortcutsSettings
  | .parsed s => s
  | _ => ⟨none⟩

/-- `get_shortcut_settings` (lib.rs lines 334-344): returns the default
when the store cannot be opened, otherwise deserializes with a default
fallback. -/
def get_shortcut_settings (storeOk : Bool) (stored : StoredShortcuts) :
    ShortcutsSettings :=
  if storeOk then load_settings stored else ⟨none⟩

/-- The startup shortcut computation (lib.rs lines 482-493): read the
persisted settings with default fallback; if a binding is present, parse
its modifier strings and its key with `unwrap_or(Code::F5)`; otherwise
use the hard-coded default `(Modifiers::ALT, Code::F5)`. -/
def startup_binding (stored : StoredShortcuts) : Modifiers × Code :=
  match (load_settings stored).toggle_recording with
  | some config =>
    (parse_modifiers config.modifiers, (parse_key config.key).getD .F5)
  | none => (⟨true, false, false, false⟩, .F5)

/-- The system state right after the startup registration
(lib.rs lines 495-501): exactly one OS-level registration, for the
startup binding. -/
def startup_state (stored : StoredShortcuts) : SysState :=
  { registered := [⟨(startup_binding stored).1, (startup_binding stored).2⟩]
    stored := stored }

/-- All intermediate states produced by a sequence of `update_shortcut`
calls, each call with its own external-outcome record, threaded through
the state left by the previous call. -/
def run_updates : SysState → List (OsEnv × List String × String) → List SysState
  | _, [] => []
  | st, c :: rest =>
    let r := update_shortcut c.1 st c.2.1 c.2.2
    r.2.2 ++ run_updates r.2.1 rest

/-- The sidecar supervisor state (lib.rs lines 30-32): the optionally
held child-process handle, modelled by its pid. -/
structure SidecarState where
  child : Option Nat
deriving DecidableEq, Repr

/-- The exit-time terminate handler (lib.rs lines 508-518): take the
handle out of the state; kill only when one was present.  Returns the new
state and whether `kill` was invoked.  There is no error path. -/
def terminate (s : SidecarState) : SidecarState × Bool :=
  match s.child with
  | some _ => (⟨none⟩, true)
  | none => (⟨none⟩, false)

/-- Outcome of `find_available_port` (lib.rs lines 39-44): either an
OS-assigned ephemeral port, or an allocation failure. -/
inductive PortProbe
  | ok (port : Nat)
  | allocationError
deriving DecidableEq, Repr

/-- The port decision at startup (lib.rs lines 434-438):
`if cfg!(debug_assertions) { 8765 } else { find_available_port().unwrap_or(8765) }`. -/
def choose_port (devMode : Bool) (probe : PortProbe) : Nat :=
  if devMode then 8765
  else
    match probe with
    | .ok p => p
    | .allocationError => 8765

/-- Events the drain loop receives (lib.rs lines 463-480):
`CommandEvent::Stdout`, `Stderr`, `Terminated`, and the wildcard arm. -/
inductive CommandEvent
  | stdout (line : String)
  | stderr (line : String)
  | terminated
  | other
deriving DecidableEq, Repr

/-- Log severities the drain loop emits. -/
inductive LogLevel
  | info
  | warn
deriving DecidableEq, Repr

/-- The drain loop (lib.rs lines 463-480): stdout lines are logged at
info, stderr lines at warn, a termination notice is logged at info and
stops the loop, other events are ignored.  The log output is the only
effect of the loop. -/
def drain_output : List CommandEvent → List (LogLevel × String)
  | [] => []
  | .stdout line :: rest => (.info, line) :: drain_output rest
  | .stderr line :: rest => (.warn, line) :: drain_output rest
  | .terminated :: _ => [(.info, "Process terminated")]
  | .other :: rest => drain_output rest

/-- Packing a basic-latin codepoint into a `Char` and reading it back is
the identity. -/
theorem char_toNat_ofNat_of_lt {n : Nat} (h : n < 55296) :
    (Char.ofNat n).toNat = n := by
  unfold Char.ofNat
  rw [dif_pos (Or.inl h)]
  rfl

/-- `Char.toUpper` is idempotent. -/
theorem char_toUpper_idem (c : Char) : c.toUpper.toUpper = c.toUpper := by
  simp only [Char.toUpper]
  by_cases h : c.toNat ≥ 97 ∧ c.toNat ≤ 122
  · rw [if_pos h]
    have hv : (Char.ofNat (c.toNat - 32)).toNat = c.toNat - 32 :=
      char_toNat_ofNat_of_lt (by omega)
    rw [hv, if_neg (by omega)]
  · rw [if_neg h, if_neg h]

/-- `upperString` is idempotent. -/
theorem upperString_idem (s : String) :
    upperString (upperString s) = upperString s := by
  unfold upperString
  apply congrArg String.mk
  simp only [List.map_map]
  exact List.map_congr_left fun c _ => char_toUpper_idem c

/-- An unrecognized modifier token leaves the accumulator unchanged. -/
theorem applyModifier_unrecognized (acc : Modifiers) (m : String)
    (h : recognizedModifier m = false) : applyModifier acc m = acc := by
  unfold applyModifier
  unfold recognizedModifier at h
  split <;> simp_all

/-- A list of modifier tokens that are all unrecognized parses to the
empty modifier set. -/
theorem parse_modifiers_all_unrecognized (mods : List String)
    (h : ∀ m ∈ mods, recognizedModifier m = false) :
    parse_modifiers mods = Modifiers.empty := by
  unfold parse_modifiers
  suffices hgen : ∀ acc : Modifiers, mods.foldl applyModifier acc = acc by
    exact hgen Modifiers.empty
  induction mods with
  | nil => intro acc; rfl
  | cons m rest ih =>
    intro acc
    have hm : recognizedModifier m = false := h m (List.mem_cons_self m rest)
    simp only [List.foldl_cons, applyModifier_unrecognized acc m hm]
    exact ih (fun x hx => h x (List.mem_cons_of_mem m hx)) acc

/-- Every state one `update_shortcut` call passes through, and the state
it ends in, has at most one active registration, provided the initial
state does. -/
theorem update_shortcut_atMostOne (env : OsEnv) (st : SysState)
    (modifiers : List String) (key : String)
    (h : st.registered.length ≤ 1) :
    (∀ s ∈ (update_shortcut env st modifiers key).2.2,
        s.registered.length ≤ 1) ∧
      (update_shortcut env st modifiers key).2.1.registered.length ≤ 1 := by
  obtain ⟨u, r, w⟩ := env
  unfold update_shortcut
  cases hk : parse_key key <;> cases u <;> cases r <;> cases w <;>
    simp_all

/-- Every state in the list of intermediate states of a sequence of
`update_shortcut` calls has at most one active registration, provided the
starting state does. -/
theorem run_updates_atMostOne (calls : List (OsEnv × List String × String)) :
    ∀ st : SysState, st.registered.length ≤ 1 →
      ∀ s ∈ run_updates st calls, s.registered.length ≤ 1 := by
  induction calls with
  | nil =>
    intro st h s hs
    simp [run_updates] at hs
  | cons c rest ih =>
    intro st h s hs
    simp only [run_updates, List.mem_append] at hs
    rcases hs with hs | hs
    · exact (update_shortcut_atMostOne c.1 st c.2.1 c.2.2 h).1 s hs
    · exact ih _ (update_shortcut_atMostOne c.1 st c.2.1 c.2.2 h).2 s hs

/-- C1 counterexample: with the default Alt+F5 binding active, a call
`update_shortcut(["Ctrl"], "A")` that parses successfully but whose OS
registration step fails returns an error and leaves the persisted record
unchanged, yet the previously active binding is NOT still registered:
`unregister_all` already removed it, so the claim as stated is false. -/
theorem c1_counterexample :
    ((update_shortcut ⟨true, false, true⟩
        ⟨[⟨⟨true, false, false, false⟩, .F5⟩], .absent⟩ ["Ctrl"] "A").1 =
      .error .registerFailed) ∧
    ((update_shortcut ⟨true, false, true⟩
        ⟨[⟨⟨true, false, false, false⟩, .F5⟩], .absent⟩ ["Ctrl"] "A").2.1.stored =
      .absent) ∧
    ¬ ((update_shortcut ⟨true, false, true⟩
        ⟨[⟨⟨true, false, false, false⟩, .F5⟩], .absent⟩ ["Ctrl"] "A").2.1.registered =
      [⟨⟨true, false, false, false⟩, .F5⟩]) := by
  decide

/-- C1 (amended): when the modifier and key strings parse successfully,
`unregister_all` succeeds, and the OS registration of the new shortcut
fails, `update_shortcut` returns a registration error, the persisted
binding record in the store is unchanged, and no registration remains
active (the previously active binding was already unregistered and is
not restored). -/
theorem c1_registration_failure_state (env : OsEnv) (st : SysState)
    (modifiers : List String) (key : String) (c : Code)
    (hk : parse_key key = some c) (hu : env.unregisterAllOk = true)
    (hr : env.registerOk = false) :
    update_shortcut env st modifiers key =
      (.error .registerFailed, ⟨[], st.stored⟩, [st, ⟨[], st.stored⟩]) := by
  unfold update_shortcut
  rw [hk]
  simp [hu, hr]

/-- Witness for C1 (amended) at a concrete input. -/
theorem c1_registration_failure_state_witness :
    update_shortcut ⟨true, false, true⟩
        ⟨[⟨⟨true, false, false, false⟩, .F5⟩], .absent⟩ ["Ctrl"] "A" =
      (.error .registerFailed, ⟨[], .absent⟩,
        [⟨[⟨⟨true, false, false, false⟩, .F5⟩], .absent⟩, ⟨[], .absent⟩]) :=
  c1_registration_failure_state ⟨true, false, true⟩
    ⟨[⟨⟨true, false, false, false⟩, .F5⟩], .absent⟩ ["Ctrl"] "A" .KeyA
    (by decide) rfl rfl

/-- C2: starting from the startup registration, every observable state
along any sequence of `update_shortcut` calls (with arbitrary external
outcomes) has at most one active OS-level registration for the toggle
action. -/
theorem c2_at_most_one_registration (stored : StoredShortcuts)
    (calls : List (OsEnv × List String × String)) :
    ∀ s ∈ startup_state stored :: run_updates (startup_state stored) calls,
      s.registered.length ≤ 1 := by
  intro s hs
  rcases List.mem_cons.mp hs with hs | hs
  · subst hs
    simp [startup_state]
  · exact run_updates_atMostOne calls (startup_state stored)
      (by simp [startup_state]) s hs

/-- Witness for C2 at a concrete startup state and call sequence. -/
theorem c2_at_most_one_registration_witness :
    (⟨[], .absent⟩ : SysState).registered.length ≤ 1 :=
  c2_at_most_one_registration .absent [(⟨true, false, true⟩, ["Ctrl"], "A")]
    ⟨[], .absent⟩ (by decide)

/-- C3: when the persisted shortcut configuration is absent or cannot be
deserialized, the startup load yields the default binding Alt plus F5;
the load is a total function, so a parsing failure is never fatal. -/
theorem c3_startup_default_alt_f5 :
    startup_binding .absent = (⟨true, false, false, false⟩, .F5) ∧
      startup_binding .unparsable = (⟨true, false, false, false⟩, .F5) := by
  decide

/-- C4: any key token that `parse_key` rejects (such as "1") makes
`update_shortcut` fail with the invalid-key error before any mutation:
the previously active registration and the persisted record are both
unchanged. -/
theorem c4_invalid_key_rejected (env : OsEnv) (st : SysState)
    (modifiers : List String) (key : String) (hk : parse_key key = none) :
    update_shortcut env st modifiers key = (.error .invalidKey, st, [st]) := by
  unfold update_shortcut
  rw [hk]

/-- Witness for C4: `update_shortcut([], "1")` with the default Alt+F5
binding active fails with the invalid-key error and changes nothing. -/
theorem c4_invalid_key_rejected_witness :
    update_shortcut ⟨true, true, true⟩
        ⟨[⟨⟨true, false, false, false⟩, .F5⟩], .parsed ⟨none⟩⟩ [] "1" =
      (.error .invalidKey,
        ⟨[⟨⟨true, false, false, false⟩, .F5⟩], .parsed ⟨none⟩⟩,
        [⟨[⟨⟨true, false, false, false⟩, .F5⟩], .parsed ⟨none⟩⟩]) :=
  c4_invalid_key_rejected ⟨true, true, true⟩
    ⟨[⟨⟨true, false, false, false⟩, .F5⟩], .parsed ⟨none⟩⟩ [] "1" (by decide)

/-- C5: a modifier list made of unrecognized tokens only, together with a
valid key, makes `update_shortcut` succeed (when the external calls
succeed) and the resulting active binding is the empty modifier set plus
that key. -/
theorem c5_unknown_modifiers_dropped (env : OsEnv) (st : SysState)
    (modifiers : List String) (key : String) (c : Code)
    (hm : ∀ m ∈ modifiers, recognizedModifier m = false)
    (hk : parse_key key = some c)
    (hu : env.unregisterAllOk = true) (hr : env.registerOk = true)
    (hw : env.storeOk = true) :
    (update_shortcut env st modifiers key).1 = .ok () ∧
      (update_shortcut env st modifiers key).2.1.registered =
        [⟨Modifiers.empty, c⟩] := by
  unfold update_shortcut
  rw [hk]
  simp [hu, hr, hw, parse_modifiers_all_unrecognized modifiers hm]

/-- Witness for C5: `update_shortcut(["Banana"], "F5")` succeeds and the
active binding is the empty modifier set plus F5. -/
theorem c5_unknown_modifiers_dropped_witness :
    (update_shortcut ⟨true, true, true⟩ ⟨[], .absent⟩ ["Banana"] "F5").1 =
        .ok () ∧
      (update_shortcut ⟨true, true, true⟩
          ⟨[], .absent⟩ ["Banana"] "F5").2.1.registered =
        [⟨Modifiers.empty, .F5⟩] :=
  c5_unknown_modifiers_dropped ⟨true, true, true⟩ ⟨[], .absent⟩ ["Banana"] "F5"
    .F5 (by decide) (by decide) rfl rfl rfl

/-- C6: a successful `update_shortcut(["Ctrl","Shift"], "A")` persists
exactly that record: reading the shortcut settings back (also after a
simulated restart) returns `{modifiers: ["Ctrl","Shift"], key: "A"}`,
and the startup load of that record parses back to the equivalent
binding Ctrl+Shift+A. -/
theorem c6_round_trip (env : OsEnv) (st : SysState)
    (hu : env.unregisterAllOk = true) (hr : env.registerOk = true)
    (hw : env.storeOk = true) :
    (update_shortcut env st ["Ctrl", "Shift"] "A").1 = .ok () ∧
      (get_shortcut_settings true
          (update_shortcut env st ["Ctrl", "Shift"] "A").2.1.stored =
        ⟨some ⟨["Ctrl", "Shift"], "A"⟩⟩) ∧
      (startup_binding
          (update_shortcut env st ["Ctrl", "Shift"] "A").2.1.stored =
        (⟨false, true, true, false⟩, .KeyA)) := by
  unfold update_shortcut
  rw [show parse_key "A" = some Code.KeyA from by decide]
  simp [hu, hr, hw, get_shortcut_settings, load_settings, startup_binding]
  decide

/-- Witness for C6 at a concrete environment and state. -/
theorem c6_round_trip_witness :
    (update_shortcut ⟨true, true, true⟩
        ⟨[], .absent⟩ ["Ctrl", "Shift"] "A").1 = .ok () ∧
      (get_shortcut_settings true
          (update_shortcut ⟨true, true, true⟩
            ⟨[], .absent⟩ ["Ctrl", "Shift"] "A").2.1.stored =
        ⟨some ⟨["Ctrl", "Shift"], "A"⟩⟩) ∧
      (startup_binding
          (update_shortcut ⟨true, true, true⟩
            ⟨[], .absent⟩ ["Ctrl", "Shift"] "A").2.1.stored =
        (⟨false, true, true, false⟩, .KeyA)) :=
  c6_round_trip ⟨true, true, true⟩ ⟨[], .absent⟩ rfl rfl rfl

/-- C7: the exit-time terminate handler is idempotent: a second
invocation on the state left by the first one returns the same state and
does not invoke kill again (so the child is killed at most once and the
second call is a no-op, not an error). -/
theorem c7_terminate_idempotent (s : SidecarState) :
    (terminate (terminate s).1).1 = (terminate s).1 ∧
      (terminate (terminate s).1).2 = false := by
  cases s with
  | mk child => cases child <;> exact ⟨rfl, rfl⟩

/-- C8: in development mode the chosen port is the fixed constant 8765
whatever the probe outcome (the probing branch is never consulted), and
in production mode an allocation failure falls back to 8765 instead of
aborting startup. -/
theorem c8_port_fallback :
    (∀ probe : PortProbe, choose_port true probe = 8765) ∧
      choose_port false .allocationError = 8765 := by
  exact ⟨fun _ => rfl, rfl⟩

/-- C9: the drain loop forwards a standard-stream line at info severity
and a diagnostic-stream line at warning severity, each followed by the
draining of the remaining events, and after a termination notice the
remaining events are never processed (the loop has stopped). -/
theorem c9_drain_output :
    (∀ line rest,
        drain_output (.stdout line :: rest) =
          (.info, line) :: drain_output rest) ∧
      (∀ line rest,
        drain_output (.stderr line :: rest) =
          (.warn, line) :: drain_output rest) ∧
      (∀ (pre post post' : List CommandEvent),
        drain_output (pre ++ .terminated :: post) =
          drain_output (pre ++ .terminated :: post')) := by
  refine ⟨fun _ _ => rfl, fun _ _ => rfl, ?_⟩
  intro pre post post'
  induction pre with
  | nil => rfl
  | cons e rest ih => cases e <;> simp [drain_output, ih]

/-- C10: key-token parsing is case-insensitive: for every key string,
`parse_key` agrees with `parse_key` on the uppercased string, and the
lowercase inputs "a" and "f5" are accepted. -/
theorem c10_parse_key_case_insensitive :
    (∀ k : String, parse_key k = parse_key (upperString k)) ∧
      parse_key "a" = some .KeyA ∧ parse_key "f5" = some .F5 := by
  refine ⟨fun k => ?_, by decide, by decide⟩
  unfold parse_key
  rw [upperString_idem]
example :
    update_shortcut ⟨true, true, true⟩ (startup_state .absent) ["Ctrl", "Shift"] "A" =
      (.ok (), ⟨[⟨⟨false, true, true, false⟩, .KeyA⟩],
        .parsed ⟨some ⟨["Ctrl", "Shift"], "A"⟩⟩⟩,
       [⟨[⟨⟨true, false, false, false⟩, .F5⟩], .absent⟩,
        ⟨[], .absent⟩,
        ⟨[⟨⟨false, true, true, false⟩, .KeyA⟩], .absent⟩,
        ⟨[⟨⟨false, true, true, false⟩, .KeyA⟩],
          .parsed ⟨some ⟨["Ctrl", "Shift"], "A"⟩⟩⟩]) := by decide
